import Mathlib

/-!
Verification of the flight deal discovery core.

Shallow embedding of the TypeScript sources:
* `serpapi.ts` — upstream result types and the hidden-city search;
* `smartSearch.ts` — the budgeted caller around the upstream provider;
* `dealFinder.ts` — the nearby-airport strategy;
* `dataAnalyzer.ts` — the zero-call analysis pass;
* `resultGrouper.ts` — deduplication, grouping and curation.

JavaScript numbers are modelled as `ℚ`; JS `Array.sort` with the
comparator `(a, b) => a.priceUsd - b.priceUsd` is modelled by a stable
insertion sort on the corresponding `≤` relation; JS `Map` and `Set` are
modelled by association lists / lists preserving insertion order; the
effects of the stateful API-call counter are made explicit by threading a
`Nat` through the functions that mutate it.  Upstream I/O
(`searchGoogleFlights`) and the ambient clock/locale functions
(`Date.getHours`, `toLocaleTimeString`) are parameters.
-/

attribute [local semireducible] Rat.mul Rat.add Rat.sub Rat.inv

/-- JS `Math.round` on a rational: round half away from zero upward,
`Math.round(x) = floor(x + 0.5)`. -/
def jsRound (q : ℚ) : ℤ := (q + 1/2).floor

/-- JS `Math.floor` on a rational. -/
def jsFloor (q : ℚ) : ℤ := q.floor

/-- JS `a || b` for an optional string `a` (absent or empty string is falsy). -/
def jsOrString (a : Option String) (b : String) : String :=
  match a with
  | some s => if s = "" then b else s
  | none => b

/-- JS `a || b` for an optional number `a` (absent or `0` is falsy). -/
def jsOrNum (a : Option ℚ) (b : ℚ) : ℚ :=
  match a with
  | some q => if q = 0 then b else q
  | none => b

/-- JS string interpolation of a possibly-`undefined` string. -/
def jsUndef (a : Option String) : String :=
  match a with
  | some s => s
  | none => "undefined"

/-- Character-list prefix test, used to model JS `String.includes`. -/
def charsStartWith : List Char → List Char → Bool
  | [], _ => true
  | _ :: _, [] => false
  | a :: as, b :: bs => a == b && charsStartWith as bs

/-- Character-list substring test, used to model JS `String.includes`. -/
def charsContain (pat : List Char) : List Char → Bool
  | [] => pat.isEmpty
  | c :: ls => charsStartWith pat (c :: ls) || charsContain pat ls

/-- JS `s.includes(pat)`: exact substring containment. -/
def strContains (s pat : String) : Bool := charsContain pat.data s.data

/-! ## Data model (`serpapi.ts`, shared `types.ts`) -/

/-- A layover entry of a `SerpFlightResult` leg (`serpapi.ts`). -/
structure SerpLayover where
  duration : ℚ
  name : String
  id : String
deriving DecidableEq

/-- The `departure_airport` / `arrival_airport` record of a leg (`serpapi.ts`). -/
structure SerpAirportStop where
  name : String
  id : String
  time : String
deriving DecidableEq

/-- One element of `SerpFlightResult.flights` (`serpapi.ts`).  `layovers` is
optional in the upstream JSON. -/
structure SerpFlightLeg where
  departure_airport : SerpAirportStop
  arrival_airport : SerpAirportStop
  duration : ℚ
  airplane : String
  airline : String
  airline_logo : String
  travel_class : String
  flight_number : String
  legroom : String
  extensions : List String
  layovers : Option (List SerpLayover)
deriving DecidableEq

/-- An itinerary returned by the upstream provider (`serpapi.ts`). -/
structure SerpFlightResult where
  flights : List SerpFlightLeg
  price : ℚ
  type : String
  booking_token : Option String
deriving DecidableEq

/-- A leg of an internal `Deal` (`types.ts`). -/
structure Leg where
  origin : String
  destination : String
  departureDate : String
  arrivalDate : String
  airline : String
  flightNumber : String
  duration : ℚ
  stops : Nat
deriving DecidableEq

/-- An internal deal record (`types.ts`).  `strategy` is kept as a string as
in the TypeScript union type. -/
structure Deal where
  priceUsd : ℚ
  strategy : String
  riskScore : Nat
  bookingLink : String
  explanation : String
  legs : List Leg
deriving DecidableEq

/-! ## Budgeted caller (`smartSearch.ts`) -/

/-- The upstream provider `searchGoogleFlights` as seen by `smartSearchFlights`:
given origin, destination, date and optional return date it either returns a
list of itineraries or throws. -/
def Provider : Type :=
  String → String → String → Option String → Except String (List SerpFlightResult)

/-- `MAX_API_CALLS_PER_SEARCH` — the hard limit (`smartSearch.ts`). -/
def MAX_API_CALLS_PER_SEARCH : Nat := 15

/-- `resetApiCallCount()` sets the counter to `0`; this is the counter value a
search starts from. -/
def resetApiCallCount : Nat := 0

/-- `smartSearchFlights` (`smartSearch.ts`): the stateful counter is threaded
explicitly.  Returns the itineraries, the new counter, and whether the
underlying provider was contacted.  A thrown provider error is caught and
absorbed into an empty result (counter already incremented, as in the source
where `apiCallCount++` precedes the `try`). -/
def smartSearchFlights (provider : Provider) (origin destination date : String)
    (returnDate : Option String) (reason : String) (apiCallCount : Nat) :
    List SerpFlightResult × Nat × Bool :=
  if MAX_API_CALLS_PER_SEARCH ≤ apiCallCount then
    ([], apiCallCount, false)
  else
    match provider origin destination date returnDate with
    | .ok results => (results, apiCallCount + 1, true)
    | .error _ => ([], apiCallCount + 1, true)

/-- Arguments of one `smartSearchFlights` invocation. -/
structure SearchRequest where
  origin : String
  destination : String
  date : String
  returnDate : Option String
  reason : String

/-- Run a sequence of `smartSearchFlights` invocations from a given counter
value and count how many of them contacted the underlying provider. -/
def smartRunCalls (provider : Provider) : Nat → List SearchRequest → Nat
  | _, [] => 0
  | c, q :: qs =>
    let step := smartSearchFlights provider q.origin q.destination q.date q.returnDate q.reason c
    (if step.2.2 then 1 else 0) + smartRunCalls provider step.2.1 qs

/-- The static `allAlternatives` table of `selectSmartAlternatives`
(`smartSearch.ts`); a missing key yields `[]` (JS `|| []`). -/
def allAlternatives (airport : String) : List String :=
  match airport with
  | "JFK" => ["EWR", "LGA"]
  | "EWR" => ["JFK", "LGA"]
  | "LGA" => ["JFK", "EWR"]
  | "LAX" => ["BUR", "ONT", "LGB", "SNA"]
  | "SFO" => ["OAK", "SJC"]
  | "ORD" => ["MDW"]
  | "IAD" => ["DCA", "BWI"]
  | "FLL" => ["MIA", "PBI"]
  | _ => []

/-- `selectSmartAlternatives` (`smartSearch.ts`). -/
def selectSmartAlternatives (airport : String) (basePrice : ℚ) : List String :=
  let alts := allAlternatives airport
  if basePrice < 100 then alts.take 1
  else if basePrice < 200 then alts.take 2
  else alts

/-! ## Nearby-airport strategy (`dealFinder.ts`) -/

/-- A deal opportunity produced by the deal-finding strategies (`dealFinder.ts`). -/
structure DealOpportunity where
  savings : ℚ
  savingsPercent : ℤ
  technique : String
  alternativeRoute : String
  flights : List SerpFlightResult
deriving DecidableEq

/-- The direct-flight test used by `findNearbyAirportDeals` and
`analyzeFlightData`: `flights.length === 1 && (!flights[0].layovers ||
flights[0].layovers.length === 0)`. -/
def isDirectResult (r : SerpFlightResult) : Bool :=
  r.flights.length == 1 &&
    (match r.flights.head? with
     | some leg => (leg.layovers.getD []).isEmpty
     | none => false)

/-- The first loop of `findNearbyAirportDeals`: probe each alternative origin
(`dealFinder.ts` lines 62-82), threading the API-call counter. -/
def nearbyOriginLoop (provider : Provider) (origin destination departureDate : String)
    (basePrice : ℚ) : List String → Nat → List DealOpportunity × Nat
  | [], c => ([], c)
  | altOrigin :: restAlts, c =>
    let res := smartSearchFlights provider altOrigin destination departureDate none
      (s!"Nearby: {altOrigin}→{destination}") c
    let tail := nearbyOriginLoop provider origin destination departureDate basePrice restAlts res.2.1
    match res.1 with
    | [] => tail
    | f :: _ =>
      if f.price < basePrice * (85/100) then
        if isDirectResult f then
          let savings := basePrice - f.price
          ({ savings := savings
             savingsPercent := jsRound (savings / basePrice * 100)
             technique := "nearby-origin"
             alternativeRoute := s!"{altOrigin} → {destination} (instead of {origin})"
             flights := [f] } :: tail.1, tail.2)
        else tail
      else tail

/-- The second loop of `findNearbyAirportDeals`: probe each alternative
destination (`dealFinder.ts` lines 85-105). -/
def nearbyDestLoop (provider : Provider) (origin destination departureDate : String)
    (basePrice : ℚ) : List String → Nat → List DealOpportunity × Nat
  | [], c => ([], c)
  | altDest :: restAlts, c =>
    let res := smartSearchFlights provider origin altDest departureDate none
      (s!"Nearby: {origin}→{altDest}") c
    let tail := nearbyDestLoop provider origin destination departureDate basePrice restAlts res.2.1
    match res.1 with
    | [] => tail
    | f :: _ =>
      if f.price < basePrice * (85/100) then
        if isDirectResult f then
          let savings := basePrice - f.price
          ({ savings := savings
             savingsPercent := jsRound (savings / basePrice * 100)
             technique := "nearby-destination"
             alternativeRoute := s!"{origin} → {altDest} (instead of {destination})"
             flights := [f] } :: tail.1, tail.2)
        else tail
      else tail

/-- `findNearbyAirportDeals` (`dealFinder.ts`). -/
def findNearbyAirportDeals (provider : Provider) (origin destination departureDate : String)
    (basePrice : ℚ) (c : Nat) : List DealOpportunity × Nat :=
  if basePrice < 70 then ([], c)
  else
    let originAlternatives := selectSmartAlternatives origin basePrice
    let destAlternatives := selectSmartAlternatives destination basePrice
    let r1 := nearbyOriginLoop provider origin destination departureDate basePrice
      originAlternatives c
    let r2 := nearbyDestLoop provider origin destination departureDate basePrice
      destAlternatives r1.2
    (r1.1 ++ r2.1, r2.2)

/-! ## Hidden-city search (`serpapi.ts`) -/

/-- `searchGoogleFlights` as seen by its in-module callers: it absorbs every
failure into an empty list, so it is a total function of the route and date. -/
def SearchFn : Type := String → String → String → List SerpFlightResult

/-- One entry of the `searchHiddenCityFlights` result. -/
structure HiddenCityResult where
  beyondDestination : String
  flights : List SerpFlightResult
deriving DecidableEq

/-- The `majorHubs` list of `searchHiddenCityFlights` (`serpapi.ts`). -/
def hiddenCityMajorHubs : List String :=
  ["LAX", "JFK", "SFO", "ORD", "ATL", "DEN", "DFW", "SEA", "MIA", "LHR", "CDG", "NRT"]

/-- The per-flight filter of `searchHiddenCityFlights`: some leg has a layover
whose airport id equals the target destination. -/
def hasHiddenLayover (destination : String) (flight : SerpFlightResult) : Bool :=
  flight.flights.any fun leg =>
    (leg.layovers.getD []).any fun layover => layover.id == destination

/-- `searchHiddenCityFlights` (`serpapi.ts`).  The five parallel searches are
independent and `searchGoogleFlights` never rejects, so the
`Promise.allSettled` join is modelled by collecting the non-null map
results in order. -/
def searchHiddenCityFlights (search : SearchFn)
    (origin destination departureDate : String) : List HiddenCityResult :=
  let beyondDestinations := hiddenCityMajorHubs.filter fun hub =>
    hub != origin && hub != destination
  (beyondDestinations.take 5).filterMap fun beyondDest =>
    let flights := search origin beyondDest departureDate
    let hiddenCityFlights := flights.filter (hasHiddenLayover destination)
    if hiddenCityFlights.length > 0 then
      some { beyondDestination := beyondDest, flights := hiddenCityFlights }
    else
      none

/-! ## Data analyser (`dataAnalyzer.ts`) -/

/-- The five output categories of `analyzeFlightData`. -/
structure AnalysisResult where
  redEyeDeals : List Deal
  layoverDeals : List Deal
  budgetAirlineDeals : List Deal
  connectingDeals : List Deal
  timeBasedDeals : List Deal
deriving DecidableEq

/-- `createDeal` (`dataAnalyzer.ts`).  The origin/destination/date arguments
are accepted but unused, as in the source (the booking link is hard-coded). -/
def createDeal (flight : SerpFlightResult) (origin destination departureDate : String)
    (explanation : String) (riskScore : Nat) : Deal :=
  { priceUsd := flight.price
    strategy := "standard"
    riskScore := riskScore
    bookingLink := "https://www.google.com/travel/flights/search?tfs=CBwQAhopag0IAhIJL20vMDJfMjg2EgoyMDI2LTA4LTI0cgwIAxIIL20vMGZucGcaKWoMCAMSCC9tLzBmbnBnEgoyMDI2LTA4LTI0cg0IAhIJL20vMDJfMjg2QAFIAXABggELCP___________wGYAQE"
    explanation := explanation
    legs := flight.flights.map fun leg =>
      { origin := leg.departure_airport.id
        destination := leg.arrival_airport.id
        departureDate := leg.departure_airport.time
        arrivalDate := leg.arrival_airport.time
        airline := leg.airline
        flightNumber := leg.flight_number
        duration := leg.duration
        stops := (leg.layovers.getD []).length } }

/-- The budget-airline list of `analyzeFlightData` (`dataAnalyzer.ts`). -/
def analyzerBudgetAirlines : List String :=
  ["Spirit", "Frontier", "Allegiant", "JetBlue", "Southwest"]

/-- `cheapestDirectPrice` as computed by `analyzeFlightData`
(`dataAnalyzer.ts` line 174): the price of the FIRST direct flight in input
order, `directFlights[0]?.price || basePrice` (JS `||`: an absent first
direct flight, or a price of `0`, falls back to `basePrice`). -/
def cheapestDirectPrice (flights : List SerpFlightResult) (basePrice : ℚ) : ℚ :=
  jsOrNum (((flights.filter isDirectResult).head?).map (·.price)) basePrice

/-- The per-itinerary loop of `analyzeFlightData` (`dataAnalyzer.ts` lines
189-277), deduplicating on `airline-flight_number-departure time` and pushing
into the five categories.  `hourOf` models `new Date(t).getHours()` and
`fmtTime` models `toLocaleTimeString`. -/
def analyzeLoop (hourOf : String → Nat) (fmtTime : String → String)
    (origin destination departureDate : String) (avgPrice cheapestDirect : ℚ) :
    List SerpFlightResult → List String → AnalysisResult
  | [], _ => ⟨[], [], [], [], []⟩
  | flight :: rest, seenFlights =>
    match flight.flights with
    | [] =>
      analyzeLoop hourOf fmtTime origin destination departureDate avgPrice cheapestDirect
        rest seenFlights
    | firstLeg :: _ =>
      let a := firstLeg.airline
      let n := firstLeg.flight_number
      let t := firstLeg.departure_airport.time
      let flightKey := s!"{a}-{n}-{t}"
      if seenFlights.contains flightKey then
        analyzeLoop hourOf fmtTime origin destination departureDate avgPrice cheapestDirect
          rest seenFlights
      else
        let tail := analyzeLoop hourOf fmtTime origin destination departureDate avgPrice
          cheapestDirect rest (seenFlights ++ [flightKey])
        let savings := max 0 (avgPrice - flight.price)
        let priceDiff := cheapestDirect - flight.price
        let hour := hourOf t
        let timeStr := fmtTime t
        let savingsStr := toString (jsRound savings)
        let isRedEye := 22 ≤ hour || hour ≤ 5
        let redEye :=
          if isRedEye then
            [createDeal flight origin destination departureDate
              (if savings > 5 then s!"🌙 Red-eye {timeStr} - Save ${savingsStr}!"
               else s!"🌙 Red-eye option {timeStr} - Late night departure") 5]
          else []
        let timeBased :=
          if !isRedEye && (6 ≤ hour && hour ≤ 8) then
            [createDeal flight origin destination departureDate
              (if savings > 5 then s!"🌅 Early bird {timeStr} - Save ${savingsStr}!"
               else s!"🌅 Early departure {timeStr} - Beat the crowds") 5]
          else []
        let hasLayover :=
          decide (1 < flight.flights.length) || decide (0 < (firstLeg.layovers.getD []).length)
        let layoverAirport :=
          jsOrString ((firstLeg.layovers.getD []).head?.map (·.id))
            (jsOrString ((flight.flights.get? 1).map (·.departure_airport.id)) "Hub")
        let layoverDuration := jsOrNum ((firstLeg.layovers.getD []).head?.map (·.duration)) 120
        let worthIt := priceDiff > 30 ∧ layoverDuration < 240
        let hoursStr := toString (jsRound (layoverDuration / 60))
        let diffStr := toString (jsRound priceDiff)
        let sparkle := if worthIt then " ✨" else ""
        let layover :=
          if hasLayover then
            [createDeal flight origin destination departureDate
              (if priceDiff > 10 then
                s!"1 stop in {layoverAirport} ({hoursStr}h layover) - Save ${diffStr}{sparkle}"
               else s!"Via {layoverAirport} ({hoursStr}h layover)") 10]
          else []
        let isBudget := analyzerBudgetAirlines.any fun ba => strContains a ba
        let budget :=
          if isBudget then
            [createDeal flight origin destination departureDate
              (if priceDiff > 10 then s!"💰 {a} - Save ${diffStr}! (May have extra fees)"
               else s!"💰 {a} budget option (Check baggage fees)") 15]
          else []
        let stopsCount := flight.flights.length
        let plural := if 1 < stopsCount then "s" else ""
        let pctStr := toString (jsRound (priceDiff / cheapestDirect * 100))
        let connecting :=
          if hasLayover && decide (priceDiff > 20) then
            [createDeal flight origin destination departureDate
              s!"{stopsCount} stop{plural} - Save ${diffStr} ({pctStr}% less)" 10]
          else []
        { redEyeDeals := redEye ++ tail.redEyeDeals
          layoverDeals := layover ++ tail.layoverDeals
          budgetAirlineDeals := budget ++ tail.budgetAirlineDeals
          connectingDeals := connecting ++ tail.connectingDeals
          timeBasedDeals := timeBased ++ tail.timeBasedDeals }

/-- The price ordering on deals used by the JS sorts
`(a, b) => a.priceUsd - b.priceUsd`. -/
def dealPriceLe (a b : Deal) : Prop := a.priceUsd ≤ b.priceUsd

instance : DecidableRel dealPriceLe := fun a b =>
  inferInstanceAs (Decidable (a.priceUsd ≤ b.priceUsd))

instance : IsTotal Deal dealPriceLe := ⟨fun a b => le_total a.priceUsd b.priceUsd⟩

instance : IsTrans Deal dealPriceLe := ⟨fun _ _ _ hab hbc => le_trans hab hbc⟩

/-- JS `Array.sort` with the ascending price comparator, modelled by a stable
insertion sort. -/
def sortDealsByPrice (l : List Deal) : List Deal := List.insertionSort dealPriceLe l

/-- `analyzeFlightData` (`dataAnalyzer.ts`). -/
def analyzeFlightData (hourOf : String → Nat) (fmtTime : String → String)
    (flights : List SerpFlightResult) (origin destination departureDate : String) :
    AnalysisResult :=
  match flights with
  | [] => ⟨[], [], [], [], []⟩
  | first :: _ =>
    let basePrice := first.price
    let cheapestDirect := cheapestDirectPrice flights basePrice
    let avgPrice := ((flights.take 5).map (·.price)).sum / (min 5 flights.length : ℚ)
    let r := analyzeLoop hourOf fmtTime origin destination departureDate avgPrice
      cheapestDirect flights []
    { redEyeDeals := sortDealsByPrice r.redEyeDeals
      layoverDeals := sortDealsByPrice r.layoverDeals
      budgetAirlineDeals := sortDealsByPrice r.budgetAirlineDeals
      connectingDeals := sortDealsByPrice r.connectingDeals
      timeBasedDeals := sortDealsByPrice r.timeBasedDeals }

/-! ## Result grouper (`resultGrouper.ts`) -/

/-- The four time-of-day buckets of `GroupedResults.cheapestByTime`. -/
structure TimeBuckets where
  morning : List Deal
  afternoon : List Deal
  evening : List Deal
  overnight : List Deal
deriving DecidableEq

/-- `GroupedResults` (`resultGrouper.ts`).  The JS `Map`s are modelled as
association lists preserving insertion order. -/
structure GroupedResults where
  bestOverall : Option Deal
  cheapestByTime : TimeBuckets
  byAirline : List (String × List Deal)
  byStrategy : List (String × List Deal)
  specialDeals : List Deal
  topDeals : List Deal
deriving DecidableEq

/-- The deduplication key string of `getFlightKey` (`resultGrouper.ts`):
`` `${deal.legs[0]?.airline}-${deal.legs[0]?.flightNumber}-${deal.legs[0]?.departureDate}` ``. -/
def getFlightKey (deal : Deal) : String :=
  let a := jsUndef (deal.legs.head?.map (·.airline))
  let n := jsUndef (deal.legs.head?.map (·.flightNumber))
  let t := jsUndef (deal.legs.head?.map (·.departureDate))
  s!"{a}-{n}-{t}"

/-- The time string used for time-of-day bucketing:
`deal.legs[0]?.departureDate || ''`. -/
def dealTimeStr (deal : Deal) : String :=
  jsOrString (deal.legs.head?.map (·.departureDate)) ""

/-- The airline used for grouping: `deal.legs[0]?.airline || 'Unknown'`. -/
def dealAirline (deal : Deal) : String :=
  jsOrString (deal.legs.head?.map (·.airline)) "Unknown"

/-- One step of the time-of-day grouping loop (`resultGrouper.ts` lines
47-60); each bucket keeps at most its first two deals in input order. -/
def pushTimeBucket (hourOf : String → Nat) (tb : TimeBuckets) (deal : Deal) : TimeBuckets :=
  let hour := hourOf (dealTimeStr deal)
  if 6 ≤ hour ∧ hour < 12 then
    if tb.morning.length < 2 then { tb with morning := tb.morning ++ [deal] } else tb
  else if 12 ≤ hour ∧ hour < 18 then
    if tb.afternoon.length < 2 then { tb with afternoon := tb.afternoon ++ [deal] } else tb
  else if 18 ≤ hour ∧ hour < 24 then
    if tb.evening.length < 2 then { tb with evening := tb.evening ++ [deal] } else tb
  else
    if tb.overnight.length < 2 then { tb with overnight := tb.overnight ++ [deal] } else tb

/-- One step of the by-airline grouping loop (`resultGrouper.ts` lines
63-72): create the entry on first sight, then push while under two deals. -/
def pushAirline (m : List (String × List Deal)) (deal : Deal) : List (String × List Deal) :=
  let airline := dealAirline deal
  match m.find? (fun e => e.1 == airline) with
  | none => m ++ [(airline, [deal])]
  | some _ =>
    m.map fun e =>
      if e.1 == airline then (e.1, if e.2.length < 2 then e.2 ++ [deal] else e.2) else e

/-- One step of the by-strategy grouping loop (`resultGrouper.ts` lines
75-80): unbounded push. -/
def pushStrategy (m : List (String × List Deal)) (deal : Deal) : List (String × List Deal) :=
  match m.find? (fun e => e.1 == deal.strategy) with
  | none => m ++ [(deal.strategy, [deal])]
  | some _ =>
    m.map fun e => if e.1 == deal.strategy then (e.1, e.2 ++ [deal]) else e

/-- A guarded push of the curation pipeline: add the deal if its flight key is
unseen and the list is still below `cap` (`resultGrouper.ts` steps 2-4). -/
def curateAdd (cap : Nat) (st : List Deal × List String) (deal : Deal) :
    List Deal × List String :=
  let key := getFlightKey deal
  if !st.2.contains key && st.1.length < cap then
    (st.1 ++ [deal], st.2 ++ [key])
  else st

/-- `Math.floor(priceUsd / 10) * 10` — the price band of curation step 5. -/
def priceBand (q : ℚ) : ℤ := jsFloor (q / 10) * 10

/-- One step of curation step 5 (`resultGrouper.ts` lines 128-139): below 35
deals, add a deal whose price band and flight key are both unseen. -/
def curateBandAdd (st : List Deal × List String × List ℤ) (deal : Deal) :
    List Deal × List String × List ℤ :=
  if 35 ≤ st.1.length then st
  else
    let pricePoint := priceBand deal.priceUsd
    let key := getFlightKey deal
    if !st.2.2.contains pricePoint && !st.2.1.contains key then
      (st.1 ++ [deal], st.2.1 ++ [key], st.2.2 ++ [pricePoint])
    else st

/-- `groupAndCurateResults` (`resultGrouper.ts`).  `hourOf` models
`new Date(s).getHours()`. -/
def groupAndCurateResults (hourOf : String → Nat) (deals : List Deal) : GroupedResults :=
  match deals with
  | [] =>
    { bestOverall := none
      cheapestByTime := ⟨[], [], [], []⟩
      byAirline := []
      byStrategy := []
      specialDeals := []
      topDeals := [] }
  | _ :: _ =>
    let sorted := sortDealsByPrice deals
    let cheapestByTime := deals.foldl (pushTimeBucket hourOf) ⟨[], [], [], []⟩
    let byAirline := deals.foldl pushAirline []
    let byStrategy := deals.foldl pushStrategy []
    let specialDeals := deals.filter fun d => d.strategy != "standard"
    let st1 : List Deal × List String :=
      match sorted.head? with
      | some best => ([best], [getFlightKey best])
      | none => ([], [])
    let st2 := specialDeals.foldl (curateAdd 30) st1
    let st3 :=
      [cheapestByTime.morning, cheapestByTime.afternoon,
        cheapestByTime.evening, cheapestByTime.overnight].foldl
        (fun st period => (period.take 2).foldl (curateAdd 40) st) st2
    let st4 := byAirline.foldl (fun st e => (e.2.take 2).foldl (curateAdd 40) st) st3
    let pricesSeen := st4.1.map fun d => priceBand d.priceUsd
    let st5 := sorted.foldl curateBandAdd (st4.1, st4.2, pricesSeen)
    { bestOverall := sorted.head?
      cheapestByTime := cheapestByTime
      byAirline := byAirline
      byStrategy := byStrategy
      specialDeals := specialDeals
      topDeals := sortDealsByPrice st5.1 }

/-! ## Spec-side definition for the `cheapestDirect` refinement claim -/

/-- The specification's description of `cheapestDirect`: the cheapest
direct-flight price among the input itineraries, falling back to `basePrice`
when the input contains no direct flight.  Written from the spec's words, to
be compared with `cheapestDirectPrice` above, which is the code's computation. -/
def cheapestDirectSpec (flights : List SerpFlightResult) (basePrice : ℚ) : ℚ :=
  match ((flights.filter isDirectResult).map (·.price)).min? with
  | some p => p
  | none => basePrice

/-! ## Concrete test data for witnesses and counterexamples -/

/-- A single direct leg used by the concrete test itineraries. -/
def testLeg (airline flightNumber time : String) : SerpFlightLeg :=
  { departure_airport := { name := "Origin", id := "JFK", time := time }
    arrival_airport := { name := "Dest", id := "LAX", time := time }
    duration := 300
    airplane := "A320"
    airline := airline
    airline_logo := ""
    travel_class := "Economy"
    flight_number := flightNumber
    legroom := ""
    extensions := []
    layovers := none }

/-- A concrete direct (single-leg, no layovers) itinerary at a given price. -/
def testDirect (price : ℚ) : SerpFlightResult :=
  { flights := [testLeg "TestAir" "TA100" "2026-03-01T09:15:00"]
    price := price
    type := "One way"
    booking_token := none }

/-- A concrete two-leg itinerary with a layover at a given airport. -/
def testWithLayover (price : ℚ) (layoverId : String) : SerpFlightResult :=
  { flights :=
      [{ testLeg "TestAir" "TA200" "2026-03-01T09:15:00" with
          layovers := some [{ duration := 90, name := "Layover", id := layoverId }] },
        testLeg "TestAir" "TA201" "2026-03-01T14:15:00"]
    price := price
    type := "One way"
    booking_token := none }

/-- Hour function for concrete runs: every departure string parses to 9 am. -/
def constHour9 : String → Nat := fun _ => 9

/-- Time formatter for concrete runs. -/
def constFmtTime : String → String := fun _ => "09:15 AM"

/-- Leg `i` of the curation counterexample: 36 pairwise distinct flight keys. -/
def cexLeg (i : Nat) : Leg :=
  { origin := "JFK"
    destination := "LAX"
    departureDate := "2026-03-01T09:15:00"
    arrivalDate := "2026-03-01T12:15:00"
    airline := s!"Airline {i}"
    flightNumber := toString (100 + i)
    duration := 180
    stops := 0 }

/-- Deal `i` of the curation counterexample: all `standard`, one leg each, 36
distinct airlines and ascending prices. -/
def cexDeal (i : Nat) : Deal :=
  { priceUsd := (100 + i : ℚ)
    strategy := "standard"
    riskScore := 10
    bookingLink := ""
    explanation := ""
    legs := [cexLeg i] }

/-- The curation counterexample input: 36 standard deals with 36 distinct
airlines and flight keys. -/
def cexDeals : List Deal := (List.range 36).map cexDeal

/-! ## Theorems -/

theorem smartRunCalls_le_sub (provider : Provider) (qs : List SearchRequest) :
    ∀ c : Nat, smartRunCalls provider c qs ≤ MAX_API_CALLS_PER_SEARCH - c := by
  induction qs with
  | nil => intro c; simp [smartRunCalls]
  | cons q qs ih =>
    intro c
    by_cases h : MAX_API_CALLS_PER_SEARCH ≤ c
    · simp only [smartRunCalls, smartSearchFlights, if_pos h]
      simpa using ih c
    · simp only [smartRunCalls, smartSearchFlights, if_neg h]
      simp only [MAX_API_CALLS_PER_SEARCH, not_le] at h
      cases hp : provider q.origin q.destination q.date q.returnDate with
      | ok rs =>
        simp only [hp, if_true]
        have := ih (c + 1)
        simp only [MAX_API_CALLS_PER_SEARCH] at this ⊢
        omega
      | error e =>
        simp only [hp, if_true]
        have := ih (c + 1)
        simp only [MAX_API_CALLS_PER_SEARCH] at this ⊢
        omega

/-- C1: within one search (counter starting at `0` after `resetApiCallCount`),
any sequence of `smartSearchFlights` invocations contacts the underlying
provider at most `MAX_API_CALLS_PER_SEARCH = 15` times, and once the counter
has reached the limit every further invocation returns the empty list without
contacting the provider. -/
theorem smartSearchFlights_budget (provider : Provider) (qs : List SearchRequest) :
    smartRunCalls provider resetApiCallCount qs ≤ MAX_API_CALLS_PER_SEARCH ∧
    ∀ (origin destination date : String) (returnDate : Option String) (reason : String)
      (c : Nat), MAX_API_CALLS_PER_SEARCH ≤ c →
      smartSearchFlights provider origin destination date returnDate reason c =
        ([], c, false) := by
  constructor
  · have := smartRunCalls_le_sub provider qs resetApiCallCount
    exact le_trans this (Nat.sub_le _ _)
  · intro o d dt r rs c hc
    simp [smartSearchFlights, hc]

/-- Witness for C1 at a concrete provider, request list and counter. -/
theorem smartSearchFlights_budget_witness :
    smartRunCalls (fun _ _ _ _ => .ok []) resetApiCallCount
        [⟨"JFK", "LAX", "2026-03-01", none, "search"⟩] ≤ MAX_API_CALLS_PER_SEARCH ∧
    smartSearchFlights (fun _ _ _ _ => .ok []) "JFK" "LAX" "2026-03-01" none "search" 15 =
      ([], 15, false) := by
  have h := smartSearchFlights_budget (fun _ _ _ _ => .ok [])
    [⟨"JFK", "LAX", "2026-03-01", none, "search"⟩]
  exact ⟨h.1, h.2 "JFK" "LAX" "2026-03-01" none "search" 15 (by decide)⟩

/-- C8: if the underlying provider throws, `smartSearchFlights` returns the
empty list instead of propagating the exception. -/
theorem smartSearchFlights_absorbs_error (provider : Provider)
    (origin destination date : String) (returnDate : Option String) (reason : String)
    (c : Nat) (e : String)
    (h : provider origin destination date returnDate = .error e) :
    (smartSearchFlights provider origin destination date returnDate reason c).1 = [] := by
  by_cases hc : MAX_API_CALLS_PER_SEARCH ≤ c
  · simp [smartSearchFlights, hc]
  · simp [smartSearchFlights, hc, h]

/-- Witness for C8: a provider that always throws yields the empty list. -/
theorem smartSearchFlights_absorbs_error_witness :
    (smartSearchFlights (fun _ _ _ _ => .error "network") "JFK" "LAX" "2026-03-01" none
      "search" 0).1 = [] :=
  smartSearchFlights_absorbs_error _ "JFK" "LAX" "2026-03-01" none "search" 0 "network" rfl

/-- C10: the curator on the empty deal list returns the all-empty structure. -/
theorem groupAndCurateResults_empty (hourOf : String → Nat) :
    groupAndCurateResults hourOf [] =
      { bestOverall := none
        cheapestByTime := ⟨[], [], [], []⟩
        byAirline := []
        byStrategy := []
        specialDeals := []
        topDeals := [] } := rfl

theorem length_sortDealsByPrice (l : List Deal) :
    (sortDealsByPrice l).length = l.length := by
  unfold sortDealsByPrice
  exact List.length_insertionSort dealPriceLe l

theorem foldl_preserve {α β : Type} {P : β → Prop} {f : β → α → β}
    (h : ∀ b a, P b → P (f b a)) : ∀ (l : List α) (b : β), P b → P (l.foldl f b) := by
  intro l
  induction l with
  | nil => intro b hb; simpa using hb
  | cons a l ih => intro b hb; exact ih _ (h b a hb)

theorem curateAdd_length_le {cap : Nat} (hcap : cap ≤ 40) (st : List Deal × List String)
    (d : Deal) (h : st.1.length ≤ 40) : (curateAdd cap st d).1.length ≤ 40 := by
  simp only [curateAdd]
  split
  · next hc =>
    simp only [Bool.and_eq_true, decide_eq_true_eq] at hc
    simp only [List.length_append, List.length_cons, List.length_nil]
    omega
  · exact h

theorem curateBandAdd_length_le (st : List Deal × List String × List ℤ) (d : Deal)
    (h : st.1.length ≤ 40) : (curateBandAdd st d).1.length ≤ 40 := by
  simp only [curateBandAdd]
  split
  · exact h
  · next hc =>
    split
    · next hp =>
      simp only [not_le] at hc
      simp only [List.length_append, List.length_cons, List.length_nil]
      omega
    · exact h

set_option maxRecDepth 10000 in
/-- C2 counterexample: `groupAndCurateResults` applied to 36 standard deals
with 36 distinct airlines returns 36 curated deals, exceeding 35 (the
airline-variety pass of the curation pipeline only stops at 40). -/
theorem groupAndCurateResults_topDeals_can_exceed_35 :
    ¬ ((groupAndCurateResults constHour9 cexDeals).topDeals.length ≤ 35) := by decide

/-- C2 amended: for every input list of deals, the curated `topDeals` list
returned by `groupAndCurateResults` contains at most 40 deals (the cheapest
deal plus passes capped at 30 and 40; the final price-band pass never pushes
at 35 or more). -/
theorem groupAndCurateResults_topDeals_le_40 (hourOf : String → Nat) (deals : List Deal) :
    (groupAndCurateResults hourOf deals).topDeals.length ≤ 40 := by
  cases deals with
  | nil => simp [groupAndCurateResults]
  | cons d ds =>
    simp only [groupAndCurateResults]
    rw [length_sortDealsByPrice]
    refine foldl_preserve curateBandAdd_length_le _ _ ?_
    dsimp only
    refine foldl_preserve (P := fun st : List Deal × List String => st.1.length ≤ 40)
      (fun b a hb => foldl_preserve (curateAdd_length_le (le_refl 40)) _ _ hb) _ _ ?_
    refine foldl_preserve (P := fun st : List Deal × List String => st.1.length ≤ 40)
      (fun b a hb => foldl_preserve (curateAdd_length_le (le_refl 40)) _ _ hb) _ _ ?_
    refine foldl_preserve (curateAdd_length_le (by omega)) _ _ ?_
    split
    · simp
    · simp

theorem sorted_sortDealsByPrice (l : List Deal) :
    (sortDealsByPrice l).Pairwise (fun a b => a.priceUsd ≤ b.priceUsd) := by
  have h := List.sorted_insertionSort dealPriceLe l
  simpa [List.Sorted, sortDealsByPrice, dealPriceLe] using h

/-- C3: the curated `topDeals` list is sorted non-decreasing by `priceUsd`. -/
theorem groupAndCurateResults_topDeals_sorted (hourOf : String → Nat) (deals : List Deal) :
    (groupAndCurateResults hourOf deals).topDeals.Pairwise
      (fun a b => a.priceUsd ≤ b.priceUsd) := by
  cases deals with
  | nil => simp [groupAndCurateResults]
  | cons d ds =>
    simp only [groupAndCurateResults]
    exact sorted_sortDealsByPrice _

theorem getFlightKey_eq_of_fields (a b : Deal)
    (h1 : a.legs.head?.map (·.airline) = b.legs.head?.map (·.airline))
    (h2 : a.legs.head?.map (·.flightNumber) = b.legs.head?.map (·.flightNumber))
    (h3 : a.legs.head?.map (·.departureDate) = b.legs.head?.map (·.departureDate)) :
    getFlightKey a = getFlightKey b := by
  simp only [getFlightKey, h1, h2, h3]

theorem curateAdd_keys {cap : Nat} (st : List Deal × List String) (d : Deal)
    (h : st.2 = st.1.map getFlightKey ∧ (st.1.map getFlightKey).Nodup) :
    (curateAdd cap st d).2 = (curateAdd cap st d).1.map getFlightKey ∧
      ((curateAdd cap st d).1.map getFlightKey).Nodup := by
  obtain ⟨he, hn⟩ := h
  simp only [curateAdd]
  split
  · next hc =>
    simp only [Bool.and_eq_true, Bool.not_eq_true', decide_eq_true_eq] at hc
    have hk : getFlightKey d ∉ st.1.map getFlightKey := by
      rw [← he]
      intro hmem
      rw [List.contains_eq_any_beq] at hc
      have : st.2.any (getFlightKey d == ·) = true :=
        List.any_eq_true.mpr ⟨_, hmem, beq_self_eq_true _⟩
      simp [this] at hc
    constructor
    · simp [he]
    · simp only [List.map_append, List.map_cons, List.map_nil, List.nodup_append]
      refine ⟨hn, List.nodup_singleton _, ?_⟩
      intro x hx hx'
      simp only [List.mem_singleton] at hx'
      exact hk (hx' ▸ hx)
  · exact ⟨he, hn⟩

theorem curateBandAdd_keys (st : List Deal × List String × List ℤ) (d : Deal)
    (h : st.2.1 = st.1.map getFlightKey ∧ (st.1.map getFlightKey).Nodup) :
    (curateBandAdd st d).2.1 = (curateBandAdd st d).1.map getFlightKey ∧
      ((curateBandAdd st d).1.map getFlightKey).Nodup := by
  obtain ⟨he, hn⟩ := h
  simp only [curateBandAdd]
  split
  · exact ⟨he, hn⟩
  · split
    · next hc =>
      simp only [Bool.and_eq_true, Bool.not_eq_true', List.contains_eq_any_beq,
        List.any_eq_false, beq_iff_eq] at hc
      have hk : getFlightKey d ∉ st.1.map getFlightKey := by
        rw [← he]
        intro hmem
        exact hc.2 _ hmem rfl
      constructor
      · simp [he]
      · simp only [List.map_append, List.map_cons, List.map_nil, List.nodup_append]
        refine ⟨hn, List.nodup_singleton _, ?_⟩
        intro x hx hx'
        simp only [List.mem_singleton] at hx'
        exact hk (hx' ▸ hx)
    · exact ⟨he, hn⟩

theorem topDeals_keys_nodup (hourOf : String → Nat) (deals : List Deal) :
    ((groupAndCurateResults hourOf deals).topDeals.map getFlightKey).Nodup := by
  cases deals with
  | nil => simp [groupAndCurateResults]
  | cons d ds =>
    simp only [groupAndCurateResults]
    refine List.Perm.nodup
      (List.Perm.map getFlightKey (List.perm_insertionSort dealPriceLe _).symm) ?_
    refine (foldl_preserve
      (P := fun st : List Deal × List String × List ℤ =>
        st.2.1 = st.1.map getFlightKey ∧ (st.1.map getFlightKey).Nodup)
      curateBandAdd_keys _ _ ?_).2
    dsimp only
    refine foldl_preserve
      (P := fun st : List Deal × List String =>
        st.2 = st.1.map getFlightKey ∧ (st.1.map getFlightKey).Nodup)
      (fun b a hb => foldl_preserve (fun s x hs => curateAdd_keys s x hs) _ _ hb) _ _ ?_
    refine foldl_preserve
      (P := fun st : List Deal × List String =>
        st.2 = st.1.map getFlightKey ∧ (st.1.map getFlightKey).Nodup)
      (fun b a hb => foldl_preserve (fun s x hs => curateAdd_keys s x hs) _ _ hb) _ _ ?_
    refine foldl_preserve (fun s x hs => curateAdd_keys s x hs) _ _ ?_
    split
    · simp
    · simp

/-- C4: no two deals of the curated `topDeals` list share the deduplication
key `(legs[0].airline, legs[0].flightNumber, legs[0].departureDate)`. -/
theorem groupAndCurateResults_topDeals_dedup (hourOf : String → Nat) (deals : List Deal) :
    (groupAndCurateResults hourOf deals).topDeals.Pairwise
      (fun a b =>
        ¬ (a.legs.head?.map (·.airline) = b.legs.head?.map (·.airline) ∧
           a.legs.head?.map (·.flightNumber) = b.legs.head?.map (·.flightNumber) ∧
           a.legs.head?.map (·.departureDate) = b.legs.head?.map (·.departureDate))) := by
  have hnodup := topDeals_keys_nodup hourOf deals
  rw [List.Nodup, List.pairwise_map] at hnodup
  exact hnodup.imp fun hne hfields =>
    hne (getFlightKey_eq_of_fields _ _ hfields.1 hfields.2.1 hfields.2.2)

theorem nearbyOriginLoop_shape (provider : Provider)
    (origin destination departureDate : String) (basePrice : ℚ) :
    ∀ (alts : List String) (c : Nat) (dl : DealOpportunity),
      dl ∈ (nearbyOriginLoop provider origin destination departureDate basePrice alts c).1 →
      ∃ f, dl.flights = [f] ∧ isDirectResult f = true ∧ f.price < basePrice * (85/100) := by
  intro alts
  induction alts with
  | nil => intro c dl h; simp [nearbyOriginLoop] at h
  | cons alt rest ih =>
    intro c dl h
    simp only [nearbyOriginLoop] at h
    rcases hres : (smartSearchFlights provider alt destination departureDate none
        (s!"Nearby: {alt}→{destination}") c).1 with _ | ⟨f, fs⟩
    · rw [hres] at h
      exact ih _ dl h
    · rw [hres] at h
      dsimp only at h
      by_cases hpr : f.price < basePrice * (85/100)
      · rw [if_pos hpr] at h
        by_cases hdir : isDirectResult f = true
        · rw [if_pos hdir] at h
          rcases List.mem_cons.mp h with heq | htail
          · subst heq
            exact ⟨f, rfl, hdir, hpr⟩
          · exact ih _ dl htail
        · rw [if_neg hdir] at h
          exact ih _ dl h
      · rw [if_neg hpr] at h
        exact ih _ dl h

theorem nearbyDestLoop_shape (provider : Provider)
    (origin destination departureDate : String) (basePrice : ℚ) :
    ∀ (alts : List String) (c : Nat) (dl : DealOpportunity),
      dl ∈ (nearbyDestLoop provider origin destination departureDate basePrice alts c).1 →
      ∃ f, dl.flights = [f] ∧ isDirectResult f = true ∧ f.price < basePrice * (85/100) := by
  intro alts
  induction alts with
  | nil => intro c dl h; simp [nearbyDestLoop] at h
  | cons alt rest ih =>
    intro c dl h
    simp only [nearbyDestLoop] at h
    rcases hres : (smartSearchFlights provider origin alt departureDate none
        (s!"Nearby: {origin}→{alt}") c).1 with _ | ⟨f, fs⟩
    · rw [hres] at h
      exact ih _ dl h
    · rw [hres] at h
      dsimp only at h
      by_cases hpr : f.price < basePrice * (85/100)
      · rw [if_pos hpr] at h
        by_cases hdir : isDirectResult f = true
        · rw [if_pos hdir] at h
          rcases List.mem_cons.mp h with heq | htail
          · subst heq
            exact ⟨f, rfl, hdir, hpr⟩
          · exact ih _ dl htail
        · rw [if_neg hdir] at h
          exact ih _ dl h
      · rw [if_neg hpr] at h
        exact ih _ dl h

/-- C5: `findNearbyAirportDeals` returns no deals when `basePrice < 70`, and
every returned deal opportunity carries exactly one itinerary, that itinerary
is a direct flight (single leg, no layovers), and its price is strictly below
85% of `basePrice`. -/
theorem findNearbyAirportDeals_shape (provider : Provider)
    (origin destination departureDate : String) (basePrice : ℚ) (c : Nat) :
    (basePrice < 70 →
      (findNearbyAirportDeals provider origin destination departureDate basePrice c).1 = []) ∧
    ∀ dl ∈ (findNearbyAirportDeals provider origin destination departureDate basePrice c).1,
      ∃ f, dl.flights = [f] ∧ isDirectResult f = true ∧ f.price < basePrice * (85/100) := by
  constructor
  · intro hlow
    simp [findNearbyAirportDeals, hlow]
  · intro dl h
    by_cases hlow : basePrice < 70
    · simp [findNearbyAirportDeals, hlow] at h
    · simp only [findNearbyAirportDeals, if_neg hlow] at h
      rcases List.mem_append.mp h with h1 | h2
      · exact nearbyOriginLoop_shape provider origin destination departureDate basePrice
          _ _ dl h1
      · exact nearbyDestLoop_shape provider origin destination departureDate basePrice
          _ _ dl h2

/-- Witness for C5: a provider quoting a direct $50 itinerary against a $100
baseline from JFK yields a qualifying nearby-origin deal; a $50 baseline
yields no deals. -/
theorem findNearbyAirportDeals_shape_witness :
    (∃ f, ({ savings := 50, savingsPercent := 50, technique := "nearby-origin",
             alternativeRoute := "EWR → MSY (instead of JFK)",
             flights := [testDirect 50] } : DealOpportunity).flights = [f] ∧
        isDirectResult f = true ∧ f.price < 100 * (85/100)) ∧
    (findNearbyAirportDeals (fun _ _ _ _ => .ok [testDirect 50]) "JFK" "MSY" "2026-03-01"
      50 0).1 = [] := by
  constructor
  · exact (findNearbyAirportDeals_shape (fun _ _ _ _ => .ok [testDirect 50]) "JFK" "MSY"
      "2026-03-01" 100 0).2 _ (by decide)
  · exact (findNearbyAirportDeals_shape (fun _ _ _ _ => .ok [testDirect 50]) "JFK" "MSY"
      "2026-03-01" 50 0).1 (by decide)

/-- C6: every result of the hidden-city search names a beyond-destination
different from the query destination, and every flight it contains has at
least one leg with a layover whose airport id equals the query destination. -/
theorem searchHiddenCityFlights_shape (search : SearchFn)
    (origin destination departureDate : String) :
    ∀ r ∈ searchHiddenCityFlights search origin destination departureDate,
      r.beyondDestination ≠ destination ∧
      ∀ f ∈ r.flights, ∃ leg ∈ f.flights,
        ∃ lay ∈ leg.layovers.getD [], lay.id = destination := by
  intro r hr
  simp only [searchHiddenCityFlights] at hr
  rw [List.mem_filterMap] at hr
  obtain ⟨b, hb, hmk⟩ := hr
  have hbmem : b ∈ hiddenCityMajorHubs.filter fun hub => hub != origin && hub != destination :=
    List.mem_of_mem_take hb
  have hbne : b ≠ destination := by
    have := (List.mem_filter.mp hbmem).2
    simp only [Bool.and_eq_true, bne_iff_ne, ne_eq] at this
    exact this.2
  split at hmk
  · next hlen =>
    rcases Option.some.injEq .. ▸ hmk with rfl
    refine ⟨hbne, ?_⟩
    intro f hf
    have hmemf := List.mem_filter.mp hf
    have hhl := hmemf.2
    simp only [hasHiddenLayover, List.any_eq_true, beq_iff_eq] at hhl
    obtain ⟨leg, hleg, lay, hlay, hid⟩ := hhl
    exact ⟨leg, hleg, lay, hlay, hid⟩
  · exact absurd hmk (by simp)

/-- Witness for C6: with a provider returning a $220 itinerary that lays over
at LAX, the hidden-city search from JFK to LAX yields a qualifying result. -/
theorem searchHiddenCityFlights_shape_witness :
    ({ beyondDestination := "SFO", flights := [testWithLayover 220 "LAX"] } :
        HiddenCityResult).beyondDestination ≠ "LAX" ∧
    ∀ f ∈ ({ beyondDestination := "SFO", flights := [testWithLayover 220 "LAX"] } :
        HiddenCityResult).flights,
      ∃ leg ∈ f.flights, ∃ lay ∈ leg.layovers.getD [], lay.id = "LAX" := by
  exact searchHiddenCityFlights_shape (fun _ _ _ => [testWithLayover 220 "LAX"])
    "JFK" "LAX" "2026-03-01" _ (by decide)

theorem foldl_min_of_le (p : ℚ) :
    ∀ ps : List ℚ, (∀ q ∈ ps, p ≤ q) → ps.foldl min p = p := by
  intro ps
  induction ps with
  | nil => intro _; rfl
  | cons q ps ih =>
    intro h
    have h1 : p ≤ q := h q (List.mem_cons_self q ps)
    simp only [List.foldl_cons, min_eq_left h1]
    exact ih fun r hr => h r (List.mem_cons_of_mem q hr)

/-- C7 counterexample: with two direct flights priced 200 and then 100 (and
`basePrice = 200`, the first flight's price, as in `analyzeFlightData`), the
code's `cheapestDirectPrice` returns 200 — the price of the FIRST direct
flight in input order — while the cheapest direct-flight price is 100. -/
theorem cheapestDirectPrice_not_cheapest :
    cheapestDirectPrice [testDirect 200, testDirect 100] 200 = 200 ∧
    cheapestDirectSpec [testDirect 200, testDirect 100] 200 = 100 ∧
    cheapestDirectPrice [testDirect 200, testDirect 100] 200 ≠
      cheapestDirectSpec [testDirect 200, testDirect 100] 200 := by
  refine ⟨by decide, by decide, by decide⟩

/-- C7 amended: when the input itineraries are sorted non-decreasing by price
(the spec's `basePrice = cheapest itinerary price` presumes this of the
provider's list) and prices are positive, `cheapestDirectPrice` equals the
cheapest direct-flight price among the input, falling back to `basePrice`
when the input contains no direct flight. -/
theorem cheapestDirectPrice_eq_spec_of_sorted (flights : List SerpFlightResult)
    (basePrice : ℚ) (hsorted : flights.Pairwise (fun a b => a.price ≤ b.price))
    (hpos : ∀ f ∈ flights, 0 < f.price) :
    cheapestDirectPrice flights basePrice = cheapestDirectSpec flights basePrice := by
  have hsf : (flights.filter isDirectResult).Pairwise (fun a b => a.price ≤ b.price) :=
    hsorted.filter _
  cases hd : flights.filter isDirectResult with
  | nil => simp [cheapestDirectPrice, cheapestDirectSpec, hd, jsOrNum]
  | cons f rest =>
    have hf : f ∈ flights := by
      have : f ∈ flights.filter isDirectResult := by
        rw [hd]; exact List.mem_cons_self _ _
      exact List.mem_of_mem_filter this
    have hfpos : 0 < f.price := hpos f hf
    have hle : ∀ g ∈ rest, f.price ≤ g.price := by
      rw [hd] at hsf
      exact fun g hg => (List.pairwise_cons.mp hsf).1 g hg
    have hmin : ((f :: rest).map (·.price)).min? = some f.price := by
      simp only [List.map_cons, List.min?]
      rw [foldl_min_of_le]
      intro q hq
      obtain ⟨g, hg, rfl⟩ := List.mem_map.mp hq
      exact hle g hg
    simp only [cheapestDirectPrice, cheapestDirectSpec, hd, hmin, List.head?_cons]
    simp [jsOrNum, hfpos.ne']

/-- Witness for C7's amended theorem at a sorted, positively-priced input. -/
theorem cheapestDirectPrice_eq_spec_of_sorted_witness :
    cheapestDirectPrice [testDirect 100, testWithLayover 150 "DEN"] 100 =
      cheapestDirectSpec [testDirect 100, testWithLayover 150 "DEN"] 100 := by
  refine cheapestDirectPrice_eq_spec_of_sorted _ _ ?_ ?_
  · decide
  · decide

theorem mem_ite_singleton_append {c : Prop} [Decidable c] {x d : Deal} {l : List Deal}
    (h : d ∈ (if c then [x] else []) ++ l) : d = x ∨ d ∈ l := by
  split at h
  · rcases List.mem_cons.mp h with h1 | h1
    · exact Or.inl h1
    · exact Or.inr h1
  · exact Or.inr (by simpa using h)

theorem createDeal_props (flight : SerpFlightResult)
    (origin destination departureDate explanation : String) (riskScore : Nat)
    (hfl : flight.flights ≠ []) (hrs : riskScore = 5 ∨ riskScore = 10 ∨ riskScore = 15) :
    (createDeal flight origin destination departureDate explanation riskScore).strategy =
        "standard" ∧
    ((createDeal flight origin destination departureDate explanation riskScore).riskScore = 5 ∨
      (createDeal flight origin destination departureDate explanation riskScore).riskScore = 10 ∨
      (createDeal flight origin destination departureDate explanation riskScore).riskScore = 15) ∧
    (createDeal flight origin destination departureDate explanation riskScore).legs ≠ [] := by
  refine ⟨rfl, by simpa [createDeal] using hrs, ?_⟩
  simp only [createDeal, ne_eq, List.map_eq_nil_iff]
  exact hfl

theorem analyzeLoop_ok (hourOf : String → Nat) (fmtTime : String → String)
    (origin destination departureDate : String) (avgPrice cheapestDirect : ℚ) :
    ∀ (flights : List SerpFlightResult) (seen : List String) (d : Deal),
      (d ∈ (analyzeLoop hourOf fmtTime origin destination departureDate avgPrice
          cheapestDirect flights seen).redEyeDeals ∨
       d ∈ (analyzeLoop hourOf fmtTime origin destination departureDate avgPrice
          cheapestDirect flights seen).layoverDeals ∨
       d ∈ (analyzeLoop hourOf fmtTime origin destination departureDate avgPrice
          cheapestDirect flights seen).budgetAirlineDeals ∨
       d ∈ (analyzeLoop hourOf fmtTime origin destination departureDate avgPrice
          cheapestDirect flights seen).connectingDeals ∨
       d ∈ (analyzeLoop hourOf fmtTime origin destination departureDate avgPrice
          cheapestDirect flights seen).timeBasedDeals) →
      d.strategy = "standard" ∧ (d.riskScore = 5 ∨ d.riskScore = 10 ∨ d.riskScore = 15) ∧
        d.legs ≠ [] := by
  intro flights
  induction flights with
  | nil =>
    intro seen d h
    simp [analyzeLoop] at h
  | cons flight rest ih =>
    intro seen d h
    cases hfl : flight.flights with
    | nil =>
      simp only [analyzeLoop, hfl] at h
      exact ih seen d h
    | cons firstLeg others =>
      have hne : flight.flights ≠ [] := by rw [hfl]; simp
      simp only [analyzeLoop, hfl] at h
      by_cases hseen :
          seen.contains
            s!"{firstLeg.airline}-{firstLeg.flight_number}-{firstLeg.departure_airport.time}"
            = true
      · rw [if_pos hseen] at h
        exact ih seen d h
      · rw [if_neg hseen] at h
        dsimp only at h
        rcases h with h | h | h | h | h
        · rcases mem_ite_singleton_append h with rfl | htail
          · exact createDeal_props _ _ _ _ _ _ hne (Or.inl rfl)
          · exact ih _ d (Or.inl htail)
        · rcases mem_ite_singleton_append h with rfl | htail
          · exact createDeal_props _ _ _ _ _ _ hne (Or.inr (Or.inl rfl))
          · exact ih _ d (Or.inr (Or.inl htail))
        · rcases mem_ite_singleton_append h with rfl | htail
          · exact createDeal_props _ _ _ _ _ _ hne (Or.inr (Or.inr rfl))
          · exact ih _ d (Or.inr (Or.inr (Or.inl htail)))
        · rcases mem_ite_singleton_append h with rfl | htail
          · exact createDeal_props _ _ _ _ _ _ hne (Or.inr (Or.inl rfl))
          · exact ih _ d (Or.inr (Or.inr (Or.inr (Or.inl htail))))
        · rcases mem_ite_singleton_append h with rfl | htail
          · exact createDeal_props _ _ _ _ _ _ hne (Or.inl rfl)
          · exact ih _ d (Or.inr (Or.inr (Or.inr (Or.inr htail))))

theorem specialDeals_eq_nil (gHour : String → Nat) (l : List Deal)
    (h : ∀ d ∈ l, d.strategy = "standard") :
    (groupAndCurateResults gHour l).specialDeals = [] := by
  cases l with
  | nil => rfl
  | cons d ds =>
    simp only [groupAndCurateResults]
    rw [List.filter_eq_nil_iff]
    intro x hx
    simp [h x hx]

/-- C9: every deal produced by `analyzeFlightData` — in all five categories —
has strategy `"standard"`, riskScore 5, 10 or 15, and a non-empty legs list;
consequently the curator classifies none of them as a special (non-standard)
deal. -/
theorem analyzeFlightData_deals_standard (hourOf gHour : String → Nat)
    (fmtTime : String → String) (flights : List SerpFlightResult)
    (origin destination departureDate : String) :
    (∀ d ∈ (analyzeFlightData hourOf fmtTime flights origin destination
          departureDate).redEyeDeals ++
        (analyzeFlightData hourOf fmtTime flights origin destination
          departureDate).layoverDeals ++
        (analyzeFlightData hourOf fmtTime flights origin destination
          departureDate).budgetAirlineDeals ++
        (analyzeFlightData hourOf fmtTime flights origin destination
          departureDate).connectingDeals ++
        (analyzeFlightData hourOf fmtTime flights origin destination
          departureDate).timeBasedDeals,
      d.strategy = "standard" ∧ (d.riskScore = 5 ∨ d.riskScore = 10 ∨ d.riskScore = 15) ∧
        d.legs ≠ []) ∧
    (groupAndCurateResults gHour
      ((analyzeFlightData hourOf fmtTime flights origin destination
          departureDate).redEyeDeals ++
        (analyzeFlightData hourOf fmtTime flights origin destination
          departureDate).layoverDeals ++
        (analyzeFlightData hourOf fmtTime flights origin destination
          departureDate).budgetAirlineDeals ++
        (analyzeFlightData hourOf fmtTime flights origin destination
          departureDate).connectingDeals ++
        (analyzeFlightData hourOf fmtTime flights origin destination
          departureDate).timeBasedDeals)).specialDeals = [] := by
  have hmain :
      ∀ d ∈ (analyzeFlightData hourOf fmtTime flights origin destination
            departureDate).redEyeDeals ++
          (analyzeFlightData hourOf fmtTime flights origin destination
            departureDate).layoverDeals ++
          (analyzeFlightData hourOf fmtTime flights origin destination
            departureDate).budgetAirlineDeals ++
          (analyzeFlightData hourOf fmtTime flights origin destination
            departureDate).connectingDeals ++
          (analyzeFlightData hourOf fmtTime flights origin destination
            departureDate).timeBasedDeals,
        d.strategy = "standard" ∧ (d.riskScore = 5 ∨ d.riskScore = 10 ∨ d.riskScore = 15) ∧
          d.legs ≠ [] := by
    intro d hd
    cases hfl : flights with
    | nil =>
      rw [hfl] at hd
      simp [analyzeFlightData] at hd
    | cons first rest =>
      rw [hfl] at hd
      simp only [analyzeFlightData, List.mem_append] at hd
      have hd' :
          d ∈ sortDealsByPrice (analyzeLoop hourOf fmtTime origin destination departureDate
              (((List.take 5 (first :: rest)).map (·.price)).sum /
                (min 5 (first :: rest).length : ℚ))
              (cheapestDirectPrice (first :: rest) first.price) (first :: rest) []).redEyeDeals ∨
          d ∈ sortDealsByPrice (analyzeLoop hourOf fmtTime origin destination departureDate
              (((List.take 5 (first :: rest)).map (·.price)).sum /
                (min 5 (first :: rest).length : ℚ))
              (cheapestDirectPrice (first :: rest) first.price) (first :: rest) []).layoverDeals ∨
          d ∈ sortDealsByPrice (analyzeLoop hourOf fmtTime origin destination departureDate
              (((List.take 5 (first :: rest)).map (·.price)).sum /
                (min 5 (first :: rest).length : ℚ))
              (cheapestDirectPrice (first :: rest) first.price)
              (first :: rest) []).budgetAirlineDeals ∨
          d ∈ sortDealsByPrice (analyzeLoop hourOf fmtTime origin destination departureDate
              (((List.take 5 (first :: rest)).map (·.price)).sum /
                (min 5 (first :: rest).length : ℚ))
              (cheapestDirectPrice (first :: rest) first.price)
              (first :: rest) []).connectingDeals ∨
          d ∈ sortDealsByPrice (analyzeLoop hourOf fmtTime origin destination departureDate
              (((List.take 5 (first :: rest)).map (·.price)).sum /
                (min 5 (first :: rest).length : ℚ))
              (cheapestDirectPrice (first :: rest) first.price)
              (first :: rest) []).timeBasedDeals := by
        tauto
      unfold sortDealsByPrice at hd'
      rw [List.mem_insertionSort, List.mem_insertionSort, List.mem_insertionSort,
        List.mem_insertionSort, List.mem_insertionSort] at hd'
      exact analyzeLoop_ok hourOf fmtTime origin destination departureDate _ _ _ _ d hd'
  refine ⟨hmain, ?_⟩
  exact specialDeals_eq_nil gHour _ fun d hd => (hmain d hd).1

set_option maxRecDepth 10000 in
/-- Witness for C9: a two-leg $150 itinerary with a DEN layover produces a
layover deal with the asserted shape, and the curator marks nothing special. -/
theorem analyzeFlightData_deals_standard_witness :
    ((createDeal (testWithLayover 150 "DEN") "JFK" "LAX" "2026-03-01"
        "Via DEN (2h layover)" 10).strategy = "standard" ∧
      ((createDeal (testWithLayover 150 "DEN") "JFK" "LAX" "2026-03-01"
          "Via DEN (2h layover)" 10).riskScore = 5 ∨
        (createDeal (testWithLayover 150 "DEN") "JFK" "LAX" "2026-03-01"
          "Via DEN (2h layover)" 10).riskScore = 10 ∨
        (createDeal (testWithLayover 150 "DEN") "JFK" "LAX" "2026-03-01"
          "Via DEN (2h layover)" 10).riskScore = 15) ∧
      (createDeal (testWithLayover 150 "DEN") "JFK" "LAX" "2026-03-01"
        "Via DEN (2h layover)" 10).legs ≠ []) ∧
    (groupAndCurateResults constHour9
      ((analyzeFlightData constHour9 constFmtTime [testWithLayover 150 "DEN"] "JFK" "LAX"
          "2026-03-01").redEyeDeals ++
        (analyzeFlightData constHour9 constFmtTime [testWithLayover 150 "DEN"] "JFK" "LAX"
          "2026-03-01").layoverDeals ++
        (analyzeFlightData constHour9 constFmtTime [testWithLayover 150 "DEN"] "JFK" "LAX"
          "2026-03-01").budgetAirlineDeals ++
        (analyzeFlightData constHour9 constFmtTime [testWithLayover 150 "DEN"] "JFK" "LAX"
          "2026-03-01").connectingDeals ++
        (analyzeFlightData constHour9 constFmtTime [testWithLayover 150 "DEN"] "JFK" "LAX"
          "2026-03-01").timeBasedDeals)).specialDeals = [] := by
  have h := analyzeFlightData_deals_standard constHour9 constHour9 constFmtTime
    [testWithLayover 150 "DEN"] "JFK" "LAX" "2026-03-01"
  exact ⟨h.1 _ (by decide), h.2⟩
